import Mathlib

/-!
Shallow embedding of the TechSprint-GDG AQI analysis tool
(`src/utils.py` and `src/app.py`) in Lean 4, with theorems settling the
frozen claims about its specification.

Modelling conventions:
* pandas `DataFrame` rows are lists of `Obs` records (`Date`, `City`, `AQI`);
  the raw upload is a `Csv` of string cells.
* pandas' `to_datetime` / `to_numeric` coercion (`errors="coerce"`) is an
  opaque library collaborator: it is passed in as `parseDate` / `parseAQI`
  parameters (`Option`-valued; `none` is NaT/NaN).  Numeric AQI values are
  exact rationals, represented as integer fractions (`Q`) so that every
  operation is kernel-computable; the concrete scenarios below stay within
  values on which Python floats are exact.
* Python functions that can raise return `PyResult`; an uncaught exception is
  `PyResult.exc`.  External HTTP / LLM services are opaque oracles passed as
  function arguments, and `os.getenv` results are `Option String` arguments.
-/

/-- A Python exception: its class name and its message. -/
structure PyError where
  kind : String
  msg : String
deriving DecidableEq, Repr

/-- Outcome of running a piece of Python code: a normal return value, or an
exception that propagates to the caller. -/
inductive PyResult (α : Type) where
  | ret : α → PyResult α
  | exc : PyError → PyResult α
deriving DecidableEq, Repr

/-- True iff the result is an uncaught exception. -/
def PyResult.isExc {α : Type} : PyResult α → Bool
  | .ret _ => false
  | .exc _ => true

/-- Python truthiness for an optional string (`None` and `""` are falsy), as
used by `os.getenv(...) or os.getenv(...)` and `if not key`. -/
def truthy (o : Option String) : Option String :=
  match o with
  | none => none
  | some s => if s = "" then none else some s

/-- An exact rational number as an integer fraction.  Invariant maintained by
all operations below: `den` is positive.  Fractions are not normalised (no
gcd), which keeps every operation reducible by the kernel; the formatting
function below is invariant under un-normalised representations. -/
structure Q where
  num : Int
  den : Int
deriving DecidableEq, Repr

instance (n : Nat) : OfNat Q n := ⟨⟨n, 1⟩⟩

/-- Embed a natural number (e.g. a row count) as a fraction. -/
def Q.ofNat (n : Nat) : Q := ⟨n, 1⟩

/-- Exact addition of fractions. -/
def Q.add (a b : Q) : Q := ⟨a.num * b.den + b.num * a.den, a.den * b.den⟩

/-- Exact division of fractions; used only with positive divisors (row
counts), matching Python's exact float division on the scenarios here. -/
def Q.div (a b : Q) : Q := ⟨a.num * b.den, a.den * b.num⟩

/-- `a ≤ b` on fractions with positive denominators, as a Boolean. -/
def Q.ble (a b : Q) : Bool := decide (a.num * b.den ≤ b.num * a.den)

/-- Python's `min(a, b)` on numbers. -/
def Q.min (a b : Q) : Q := if a.ble b then a else b

/-- Python's `max(a, b)` on numbers. -/
def Q.max (a b : Q) : Q := if a.ble b then b else a

/-- Sum of a list of fractions. -/
def Q.sumList (l : List Q) : Q := l.foldl Q.add ⟨0, 1⟩

/-- A calendar date, as produced by pandas `to_datetime` and printed by
`Timestamp.date()`. -/
structure Date where
  year : Nat
  month : Nat
  day : Nat
deriving DecidableEq, Repr

/-- Numeric key giving the usual chronological order on dates. -/
def Date.key (d : Date) : Nat :=
  d.year * 10000 + d.month * 100 + d.day

/-- Decimal rendering of a `Nat` padded with leading zeros to `w` digits,
matching Python's `%02d`-style date fields. -/
def padNum (w : Nat) (n : Nat) : String :=
  let s := Nat.repr n
  String.mk (List.replicate (w - s.length) '0') ++ s

/-- `YYYY-MM-DD`, the rendering of `Timestamp.date()` in an f-string. -/
def Date.iso (d : Date) : String :=
  padNum 4 d.year ++ "-" ++ padNum 2 d.month ++ "-" ++ padNum 2 d.day

/-- One validated observation row of the Dataset: `Date`, `City`, `AQI`. -/
structure Obs where
  date : Date
  city : String
  aqi : Q
deriving DecidableEq, Repr

/-- One raw CSV data row, holding the string cells of the three relevant
columns (extra columns play no role in the code and are omitted). -/
structure CsvRow where
  date : String
  city : String
  aqi : String
deriving DecidableEq, Repr

/-- A raw uploaded table: header cells (possibly with surrounding whitespace)
and data rows. -/
structure Csv where
  columns : List String
  rows : List CsvRow
deriving DecidableEq, Repr

/-- Python's `str.strip()` on a character list: drop whitespace from both
ends. -/
def stripChars (l : List Char) : List Char :=
  (((l.dropWhile Char.isWhitespace).reverse).dropWhile Char.isWhitespace).reverse

/-- Python's `str.strip()`, the transform `df.columns.str.strip()` applies to
each column name. -/
def pyStrip (s : String) : String := String.mk (stripChars s.data)

/-- The required column names of `load_data` (`required = {"Date","City","AQI"}`). -/
def requiredCols : List String := ["Date", "City", "AQI"]

/-- The required columns absent from the header after
`df.columns.str.strip()`, i.e. the witness to `not required.issubset(...)`. -/
def missingCols (cols : List String) : List String :=
  requiredCols.filter (fun c => ¬ c ∈ cols.map (fun n => pyStrip n))

/-- `load_data` (src/utils.py lines 9-21): strip header whitespace, require
`Date`, `City`, `AQI`, raise `ValueError` otherwise; coerce dates and AQI
values (failures become NaT/NaN) and drop rows where either is missing.  The
surviving rows keep their input order: the function does not sort and does
not reject an empty result. -/
def load_data (parseDate : String → Option Date) (parseAQI : String → Option Q)
    (csv : Csv) : Except String (List Obs) :=
  if missingCols csv.columns ≠ [] then
    .error "CSV must contain Date, City, AQI columns"
  else
    .ok (csv.rows.filterMap (fun r =>
      match parseDate r.date, parseAQI r.aqi with
      | some d, some a => some ⟨d, r.city, a⟩
      | _, _ => none))

/-- The order used by `df.sort_values("Date")` in src/app.py line 66. -/
def dateLe (a b : Obs) : Prop := a.date.key ≤ b.date.key

instance : DecidableRel dateLe := fun a b => Nat.decLe a.date.key b.date.key

instance : IsTotal Obs dateLe := ⟨fun a b => Nat.le_total a.date.key b.date.key⟩

instance : IsTrans Obs dateLe := ⟨fun _ _ _ h h' => Nat.le_trans h h'⟩

/-- `df = df.sort_values("Date")` (src/app.py line 66): sort the dataset
ascending by date. -/
def sort_values (l : List Obs) : List Obs := List.insertionSort dateLe l

/-- First-seen deduplication, the behaviour of pandas `Series.unique()`:
`seen` accumulates values already emitted. -/
def dedupFirst (seen : List String) : List String → List String
  | [] => []
  | c :: rest => if c ∈ seen then dedupFirst seen rest else c :: dedupFirst (c :: seen) rest

/-- `df.City.unique()`: the distinct city names in first-seen order. -/
def uniqueCities (rows : List Obs) : List String :=
  dedupFirst [] (rows.map (fun r => r.city))

/-- Round an exact fraction (positive denominator) to the nearest integer,
ties to even — the rounding of CPython's fixed-point float formatting, exact
on exactly-representable values.  `Int.ediv`/`Int.emod` give the floor and a
remainder in `[0, den)`, so the result does not depend on the chosen
representation of the fraction. -/
def roundHalfEven (q : Q) : Int :=
  let f := Int.ediv q.num q.den
  let r := Int.emod q.num q.den
  if 2 * r < q.den then f
  else if 2 * r > q.den then f + 1
  else if Int.emod f 2 = 0 then f else f + 1

/-- Python's `f"{x:.{nd}f}"` fixed-point formatting on exact values. -/
def fmtFixed (nd : Nat) (q : Q) : String :=
  let m := roundHalfEven ⟨q.num * (((10 : Nat) ^ nd : Nat) : Int), q.den⟩
  let a := m.natAbs
  let ip := a / 10 ^ nd
  let fp := a % 10 ^ nd
  (if m < 0 then "-" else "") ++ Nat.repr ip ++
    (if nd = 0 then "" else "." ++ padNum nd fp)

/-- `f"{x:.1f}"`, the only numeric format used by `summarize_data`. -/
def fmt1 (q : Q) : String := fmtFixed 1 q

/-- `c.AQI.mean()`: arithmetic mean of a (nonempty) series. -/
def seriesMean (l : List Q) : Q := Q.div (Q.sumList l) (Q.ofNat l.length)

/-- `c.AQI.min()`: minimum of a (nonempty) series. -/
def seriesMin : List Q → Q
  | [] => 0
  | x :: xs => xs.foldl Q.min x

/-- `c.AQI.max()`: maximum of a (nonempty) series. -/
def seriesMax : List Q → Q
  | [] => 0
  | x :: xs => xs.foldl Q.max x

/-- `df.Date.min()` over a (nonempty) date series. -/
def seriesMinDate : List Date → Date
  | [] => ⟨0, 0, 0⟩
  | d :: ds => ds.foldl (fun a b => if b.key < a.key then b else a) d

/-- `df.Date.max()` over a (nonempty) date series. -/
def seriesMaxDate : List Date → Date
  | [] => ⟨0, 0, 0⟩
  | d :: ds => ds.foldl (fun a b => if b.key > a.key then b else a) d

/-- The per-city line of `summarize_data` (src/utils.py lines 31-34):
`f"{city} → Avg AQI {mean:.1f}, Min {min:.1f}, Max {max:.1f}"` over the rows
filtered to that city. -/
def cityLine (rows : List Obs) (city : String) : String :=
  let aqis := (rows.filter (fun r => r.city == city)).map (fun r => r.aqi)
  city ++ " → Avg AQI " ++ fmt1 (seriesMean aqis) ++
    ", Min " ++ fmt1 (seriesMin aqis) ++ ", Max " ++ fmt1 (seriesMax aqis)

/-- The `lines` list built by `summarize_data` (src/utils.py lines 24-36):
a date-range header, a city-list header, then one line per city. -/
def summarize_lines (rows : List Obs) : List String :=
  let cities := uniqueCities rows
  ("Date Range: " ++ (seriesMinDate (rows.map (fun r => r.date))).iso ++
     " to " ++ (seriesMaxDate (rows.map (fun r => r.date))).iso)
  :: ("Cities: " ++ String.intercalate ", " cities)
  :: cities.map (cityLine rows)

/-- `summarize_data` (src/utils.py lines 24-36): `"\n".join(lines)`. -/
def summarize_data (rows : List Obs) : String :=
  String.intercalate "\n" (summarize_lines rows)

/-- Whether `p` occurs as a prefix of `l` (character lists). -/
def listStartsWith : List Char → List Char → Bool
  | [], _ => true
  | _ :: _, [] => false
  | a :: as, b :: bs => a == b && listStartsWith as bs

/-- Whether `p` occurs as a contiguous substring of `l` (character lists). -/
def listHasSub (p : List Char) : List Char → Bool
  | [] => p.isEmpty
  | c :: rest => listStartsWith p (c :: rest) || listHasSub p rest

/-- Whether the string `pat` occurs as a contiguous substring of `s`. -/
def strHasSub (pat s : String) : Bool := listHasSub pat.data s.data

/-- Outcome of `client.models.generate_content(...)` in `get_gemini_response`:
either a response whose `.text` is `none` (Python `None`) or a string, or a
raised exception.  The Gemini SDK is an opaque collaborator. -/
inductive GenaiOutcome where
  | text : Option String → GenaiOutcome
  | raised : PyError → GenaiOutcome
deriving DecidableEq, Repr

/-- `get_gemini_response` (src/utils.py lines 39-49).  `geminiKey` and
`googleKey` are `os.getenv("GEMINI_API_KEY")` / `os.getenv("GOOGLE_API_KEY")`;
`generate` is the SDK call given the key and the prompt.  There is no
`try/except` in the source, so a raised error propagates as `PyResult.exc`. -/
def get_gemini_response (geminiKey googleKey : Option String)
    (generate : String → String → GenaiOutcome) (prompt : String) : PyResult String :=
  match truthy geminiKey <|> truthy googleKey with
  | none => .ret "Gemini API key missing."
  | some key =>
    match generate key prompt with
    | .raised e => .exc e
    | .text t =>
      match truthy t with
      | some s => .ret s
      | none => .ret "No response from Gemini."

/-- Python call semantics for `utils.get_gemini_response`, whose `def` takes
exactly one positional parameter (`prompt`): a call with any other number of
positional arguments raises `TypeError` before the body runs. -/
def invoke_get_gemini_response (body : String → PyResult String)
    (args : List String) : PyResult String :=
  match args with
  | [p] => body p
  | _ => .exc ⟨"TypeError",
      "get_gemini_response() takes 1 positional argument but " ++
        Nat.repr args.length ++ " were given"⟩

/-- What the page shows for one analysis button after a click. -/
inductive Shown where
  | analysis : String → Shown
  | errorBox : String → Shown
deriving DecidableEq, Repr

/-- The three analysis buttons of src/app.py. -/
inductive AppButton where
  | analyzeTrends
  | compareCities
  | forecastAqi
deriving DecidableEq, Repr

/-- The prompt built for each button (src/app.py lines 118-126, 139-147,
160-170), each ending with the data summary. -/
def buttonPrompt (b : AppButton) (data_summary : String) : String :=
  match b with
  | .analyzeTrends =>
      "You are an environmental data analyst.\n\n" ++
      "Analyze the following AQI data summary and identify:\n" ++
      "- Overall AQI trend (increasing/decreasing)\n" ++
      "- Seasonal patterns\n" ++
      "- Any notable pollution spikes\n\n" ++
      "Do not provide numeric predictions.\n\n" ++ data_summary
  | .compareCities =>
      "You are an environmental scientist.\n\n" ++
      "Using the AQI data summary below:\n" ++
      "- Compare air quality across cities\n" ++
      "- Identify which city is generally cleaner\n" ++
      "- Identify which city shows the most variability\n\n" ++
      "Base your reasoning strictly on the summary.\n\n" ++ data_summary
  | .forecastAqi =>
      "Based on the historical AQI trends in the summary below:\n\n" ++
      "Predict ONLY the qualitative AQI outlook for the next month.\n" ++
      "Choose exactly ONE label:\n" ++
      "- IMPROVE\n" ++
      "- WORSEN\n" ++
      "- STABLE\n\n" ++
      "Do NOT provide numeric values.\n" ++
      "After the label, give a short explanation.\n\n" ++ data_summary

/-- The `try/except` of src/app.py lines 61, 184-187 around an exception that
reaches it: `except ValueError` displays the bare message, the catch-all
`except Exception` displays `f"An unexpected error occurred: {e}"`. -/
def app_handle_exc (e : PyError) : Shown :=
  if e.kind = "ValueError" then .errorBox e.msg
  else .errorBox ("An unexpected error occurred: " ++ e.msg)

/-- One button click inside the app's `try` block (src/app.py lines 127-129,
148-150, 171-173): `utils.get_gemini_response(prompt, api_key)` is called with
TWO positional arguments; on success the response text is stored and shown, a
raised exception falls to the handlers of lines 184-187. -/
def app_button_click (b : AppButton) (data_summary api_key : String)
    (body : String → PyResult String) : Shown :=
  match invoke_get_gemini_response body [buttonPrompt b data_summary, api_key] with
  | .ret t => .analysis t
  | .exc e => app_handle_exc e

/-- One geocoding hit of the OpenWeather `geo/1.0/direct` response. -/
structure GeoHit where
  lat : Rat
  lon : Rat
deriving DecidableEq, Repr

/-- Outcome of the geocoding HTTP request in `get_city_coordinates`: the
parsed JSON list, or a raised `requests` exception (there is no `try` around
the call in the source). -/
inductive GeoResult where
  | ok : List GeoHit → GeoResult
  | raised : PyError → GeoResult
deriving DecidableEq, Repr

/-- Value returned by `get_city_coordinates`: either the `{"error": ...}`
dict or the `{"lat","lon"}` dict. -/
inductive CoordRet where
  | err : String → CoordRet
  | coords : Rat → Rat → CoordRet
deriving DecidableEq, Repr

/-- `get_city_coordinates` (src/utils.py lines 54-68): missing key and empty
result list produce error dicts, the first hit's coordinates are returned
otherwise, and an exception raised by the HTTP call propagates. -/
def get_city_coordinates (owKey : Option String) (geo : String → GeoResult)
    (city : String) : PyResult CoordRet :=
  match truthy owKey with
  | none => .ret (.err "OpenWeather API key missing")
  | some _ =>
    match geo city with
    | .raised e => .exc e
    | .ok [] => .ret (.err "City not found")
    | .ok (h :: _) => .ret (.coords h.lat h.lon)

/-- One record of the OpenWeather air-pollution `list`: whether the `"main"`
dict is present, the value of `main["aqi"]` when present, and the
`"components"` mapping. -/
structure PollRecord where
  hasMain : Bool
  aqi : Option Int
  components : List (String × Rat)
deriving DecidableEq, Repr

/-- `record.get("main", {}).get("aqi")`: never raises. -/
def PollRecord.mainAqiGet (r : PollRecord) : Option Int :=
  if r.hasMain then r.aqi else none

/-- `record["main"]["aqi"]`: raises `KeyError` when either key is absent. -/
def PollRecord.mainAqiItem (r : PollRecord) : PyResult Int :=
  if r.hasMain then
    match r.aqi with
    | some v => .ret v
    | none => .exc ⟨"KeyError", "aqi"⟩
  else .exc ⟨"KeyError", "main"⟩

/-- Outcome of the air-pollution HTTP request in `fetch_air_pollution`, as
the `try/except` there distinguishes it: a raised timeout, another raised
`requests` error (connection failure or `raise_for_status` on a bad status),
or a 2xx JSON body whose `"list"` key is absent (`none`) or present. -/
inductive PollResp where
  | timeout
  | reqError
  | payload : Option (List PollRecord) → PollResp
deriving DecidableEq, Repr

/-- Value returned by `fetch_air_pollution`: the `{"error": ...}` dict or the
`{"current", "forecast"}` dict. -/
inductive PollOut where
  | err : String → PollOut
  | ok : PollRecord → List PollRecord → PollOut
deriving DecidableEq, Repr

/-- `fetch_air_pollution` (src/utils.py lines 71-99): missing key, timeout,
request errors and an absent or empty `"list"` yield error dicts; otherwise
`current = data["list"][0]` and `forecast = data["list"][:3]`. -/
def fetch_air_pollution (owKey : Option String) (poll : Rat → Rat → PollResp)
    (lat lon : Rat) : PollOut :=
  match truthy owKey with
  | none => .err "OpenWeather API key missing."
  | some _ =>
    match poll lat lon with
    | .timeout => .err "OpenWeather request timed out."
    | .reqError => .err "Failed to connect to OpenWeather service."
    | .payload none => .err "Air quality data unavailable from OpenWeather."
    | .payload (some []) => .err "Air quality data unavailable from OpenWeather."
    | .payload (some (c :: rest)) => .ok c ((c :: rest).take 3)

/-- The fixed `aqi_category_map` dict of src/utils.py lines 127-133. -/
def aqi_category_map : List (Int × String) :=
  [(1, "Good"), (2, "Fair"), (3, "Moderate"), (4, "Poor"), (5, "Very Poor")]

/-- `aqi_category_map.get(x, default)` for an optional key (Python `None` is
not a key of the dict). -/
def categoryGet (x : Option Int) (default : String) : String :=
  match x with
  | none => default
  | some v => (aqi_category_map.lookup v).getD default

/-- The success dict of `fetch_live_aqi` (src/utils.py lines 159-166). -/
structure LiveReading where
  aqi : Option Int
  category : String
  components : List (String × Rat)
  forecast_text : String
  forecast : List PollRecord
deriving DecidableEq, Repr

/-- Value returned by `fetch_live_aqi`: an error dict or the reading dict. -/
inductive LiveOut where
  | err : String → LiveOut
  | ok : LiveReading → LiveOut
deriving DecidableEq, Repr

/-- `fetch_live_aqi` (src/utils.py lines 102-166): resolve coordinates, fetch
pollution, map categories.  Any failure of the two helpers is replaced by a
generic error dict; the `"current" not in pollution` guard never fires on the
success dict of `fetch_air_pollution`.  The 24h/48h categories read
`forecast_list[i]["main"]["aqi"]` with bracket access, whose `KeyError`
(and any exception escaping `get_city_coordinates`) propagates uncaught. -/
def fetch_live_aqi (owKey : Option String) (geo : String → GeoResult)
    (poll : Rat → Rat → PollResp) (city_name : String) : PyResult LiveOut :=
  match get_city_coordinates owKey geo city_name with
  | .exc e => .exc e
  | .ret (.err _) => .ret (.err "Failed to resolve city location.")
  | .ret (.coords lat lon) =>
    match fetch_air_pollution owKey poll lat lon with
    | .err _ => .ret (.err "Failed to fetch air pollution data.")
    | .ok current forecast_list =>
      let components := current.components
      let aqi_value := current.mainAqiGet
      let category_now := categoryGet aqi_value "Unknown"
      match (match forecast_list with
             | [] => PyResult.ret category_now
             | f0 :: _ =>
               match f0.mainAqiItem with
               | .exc e => PyResult.exc e
               | .ret v => PyResult.ret (categoryGet (some v) category_now)) with
      | .exc e => .exc e
      | .ret category_24h =>
        match (match forecast_list with
               | _ :: f1 :: _ =>
                 match f1.mainAqiItem with
                 | .exc e => PyResult.exc e
                 | .ret v => PyResult.ret (categoryGet (some v) category_now)
               | _ => PyResult.ret category_now) with
        | .exc e => .exc e
        | .ret category_48h =>
          .ret (.ok
            { aqi := aqi_value
              category := category_now
              components := components
              forecast_text := "Next 24 Hours: " ++ category_24h ++
                "\nFollowing 24 Hours: " ++ category_48h
              forecast := forecast_list })

/-- Split a character list at every occurrence of `sep`. -/
def splitOnChar (sep : Char) : List Char → List (List Char)
  | [] => [[]]
  | c :: rest =>
    let r := splitOnChar sep rest
    if c == sep then [] :: r
    else
      match r with
      | [] => [[c]]
      | h :: t => (c :: h) :: t

/-- Read a nonempty all-digit character list as a natural number. -/
def digitsToNat (l : List Char) : Option Nat :=
  if l = [] then none
  else
    l.foldl
      (fun acc c =>
        match acc with
        | none => none
        | some n => if c.isDigit then some (n * 10 + (c.toNat - 48)) else none)
      (some 0)

/-- Concrete instance of the opaque pandas date parser (ISO `YYYY-MM-DD`
dates only), used to evaluate the embedding on the spec's scenarios. -/
def demoParseDate (s : String) : Option Date :=
  match splitOnChar '-' s.data with
  | [y, m, d] =>
    match digitsToNat y, digitsToNat m, digitsToNat d with
    | some yn, some mn, some dn =>
      if 1 ≤ mn ∧ mn ≤ 12 ∧ 1 ≤ dn ∧ dn ≤ 31 then some ⟨yn, mn, dn⟩ else none
    | _, _, _ => none
  | _ => none

/-- Concrete instance of the opaque pandas numeric parser (natural-number
literals only), used to evaluate the embedding on the spec's scenarios. -/
def demoParseAQI (s : String) : Option Q :=
  (digitsToNat s.data).map (fun n => Q.ofNat n)

/-- The upload of end-to-end scenario A of the spec:
`(2024-01-01, CityX, 50), (2024-01-15, CityX, 150), (2024-02-01, CityX, 100)`. -/
def scenarioA : Csv :=
  { columns := ["Date", "City", "AQI"]
    rows := [⟨"2024-01-01", "CityX", "50"⟩, ⟨"2024-01-15", "CityX", "150"⟩,
             ⟨"2024-02-01", "CityX", "100"⟩] }

/-- The Dataset of scenario A after loading. -/
def scenarioARows : List Obs :=
  [⟨⟨2024, 1, 1⟩, "CityX", 50⟩, ⟨⟨2024, 1, 15⟩, "CityX", 150⟩,
   ⟨⟨2024, 2, 1⟩, "CityX", 100⟩]

/-- A one-city Dataset whose two rows fall in the same calendar month. -/
def sameMonthRows : List Obs :=
  [⟨⟨2024, 1, 1⟩, "CityX", 50⟩, ⟨⟨2024, 1, 15⟩, "CityX", 150⟩]

/-! ### Helper lemmas -/

lemma dedupFirst_eq_nil (seen l : List String) (h : ∀ x ∈ l, x ∈ seen) :
    dedupFirst seen l = [] := by
  induction l with
  | nil => rfl
  | cons a as ih =>
    have ha : a ∈ seen := h a (by simp)
    simp only [dedupFirst, if_pos ha]
    exact ih (fun x hx => h x (by simp [hx]))

lemma uniqueCities_const (rows : List Obs) (c : String) (hne : rows ≠ [])
    (hc : ∀ r ∈ rows, r.city = c) : uniqueCities rows = [c] := by
  rcases rows with _ | ⟨r0, rest⟩
  · exact absurd rfl hne
  · have h0 : r0.city = c := hc r0 (by simp)
    unfold uniqueCities
    simp only [List.map_cons, h0, dedupFirst, List.not_mem_nil, if_neg, if_false]
    rw [dedupFirst_eq_nil]
    intro x hx
    rcases List.mem_map.mp hx with ⟨r, hr, rfl⟩
    simp [hc r (by simp [hr])]

lemma intercalate_singleton (s x : String) : String.intercalate s [x] = x := rfl

lemma categoryGet_idem (v : Int) :
    categoryGet (some v) (categoryGet (some v) "Unknown") =
      categoryGet (some v) "Unknown" := by
  simp only [categoryGet]
  cases aqi_category_map.lookup v <;> simp

/-- Decidable equality for `Except`, needed to evaluate `load_data` results
on concrete inputs. -/
instance {ε α : Type} [DecidableEq ε] [DecidableEq α] : DecidableEq (Except ε α) := fun x y =>
  match x, y with
  | .ok a, .ok b =>
    if h : a = b then isTrue (by rw [h]) else isFalse (fun he => by cases he; exact h rfl)
  | .error a, .error b =>
    if h : a = b then isTrue (by rw [h]) else isFalse (fun he => by cases he; exact h rfl)
  | .ok _, .error _ => isFalse (fun he => by cases he)
  | .error _, .ok _ => isFalse (fun he => by cases he)

/-! ### Claims C1 and C2: content of the digest -/

/-- C1 counterexample: for a one-city Dataset whose two rows lie in the same
calendar month (January 2024, AQI 50 and 150, mean 100.0), the digest contains
no monthly-average line at all — its full text is three lines (date range,
city list, one per-city line) and the claimed monthly line `2024-01: 100.0`
does not occur in it. -/
theorem C1_counterexample :
    summarize_data sameMonthRows =
      "Date Range: 2024-01-01 to 2024-01-15\nCities: CityX\nCityX → Avg AQI 100.0, Min 50.0, Max 150.0"
    ∧ strHasSub "2024-01: 100.0" (summarize_data sameMonthRows) = false
    ∧ strHasSub "2024-01:" (summarize_data sameMonthRows) = false := by
  refine ⟨by decide, by decide, by decide⟩

/-- C1 (amended): the digest of `summarize_data` contains no monthly
bucketing.  For a Dataset whose rows all belong to one city, the digest is
exactly three lines — the date-range header, the city-list header, and one
per-city line whose `Avg AQI` field is the arithmetic mean of ALL of that
city's AQI values rounded to 1 decimal digit (in particular, when the N rows
all lie in one calendar month, this is the claimed monthly mean, but it
appears in the single per-city line, not in a monthly-average line). -/
theorem C1_thm (rows : List Obs) (c : String) (hne : rows ≠ [])
    (hc : ∀ r ∈ rows, r.city = c) :
    summarize_lines rows =
      ["Date Range: " ++ (seriesMinDate (rows.map (fun r => r.date))).iso ++
         " to " ++ (seriesMaxDate (rows.map (fun r => r.date))).iso,
       "Cities: " ++ c,
       c ++ " → Avg AQI " ++ fmt1 (seriesMean (rows.map (fun r => r.aqi))) ++
         ", Min " ++ fmt1 (seriesMin (rows.map (fun r => r.aqi))) ++
         ", Max " ++ fmt1 (seriesMax (rows.map (fun r => r.aqi)))] := by
  have hu := uniqueCities_const rows c hne hc
  have hfilter : rows.filter (fun r => r.city == c) = rows :=
    List.filter_eq_self.mpr (fun r hr => by simp [hc r hr])
  simp [summarize_lines, hu, cityLine, hfilter, intercalate_singleton]

/-- C1 witness: the amended statement evaluated on the same-month Dataset. -/
theorem C1_witness :
    summarize_lines sameMonthRows =
      ["Date Range: " ++ (seriesMinDate (sameMonthRows.map (fun r => r.date))).iso ++
         " to " ++ (seriesMaxDate (sameMonthRows.map (fun r => r.date))).iso,
       "Cities: " ++ "CityX",
       "CityX" ++ " → Avg AQI " ++ fmt1 (seriesMean (sameMonthRows.map (fun r => r.aqi))) ++
         ", Min " ++ fmt1 (seriesMin (sameMonthRows.map (fun r => r.aqi))) ++
         ", Max " ++ fmt1 (seriesMax (sameMonthRows.map (fun r => r.aqi)))] :=
  C1_thm sameMonthRows "CityX" (by decide) (by decide)

/-- C2 counterexample: on the exact rows of the claim's scenario
(`(2024-01-01, CityX, 50), (2024-01-15, CityX, 150), (2024-02-01, CityX, 100)`)
the digest formats the statistics with ONE decimal digit: none of the claimed
two-decimal renderings `50.00` / `150.00` / `100.00` occurs in it, while the
one-decimal renderings do. -/
theorem C2_counterexample :
    summarize_data scenarioARows =
      "Date Range: 2024-01-01 to 2024-02-01\nCities: CityX\nCityX → Avg AQI 100.0, Min 50.0, Max 150.0"
    ∧ strHasSub "50.00" (summarize_data scenarioARows) = false
    ∧ strHasSub "150.00" (summarize_data scenarioARows) = false
    ∧ strHasSub "100.00" (summarize_data scenarioARows) = false
    ∧ strHasSub "Avg AQI 100.0, Min 50.0, Max 150.0" (summarize_data scenarioARows) = true := by
  refine ⟨by decide, by decide, by decide, by decide, by decide⟩

/-- C2 (amended): for every Dataset and every city occurring in it, the digest
line list of `summarize_data` contains that city's line reporting its mean,
minimum and maximum AQI, each rounded to 1 (not 2) decimal digits by Python's
`:.1f` formatting, in the order `Avg, Min, Max`. -/
theorem C2_thm (rows : List Obs) (city : String) (h : city ∈ uniqueCities rows) :
    (city ++ " → Avg AQI " ++
        fmt1 (seriesMean ((rows.filter (fun r => r.city == city)).map (fun r => r.aqi))) ++
      ", Min " ++
        fmt1 (seriesMin ((rows.filter (fun r => r.city == city)).map (fun r => r.aqi))) ++
      ", Max " ++
        fmt1 (seriesMax ((rows.filter (fun r => r.city == city)).map (fun r => r.aqi))))
      ∈ summarize_lines rows := by
  have hmem : cityLine rows city ∈ (uniqueCities rows).map (cityLine rows) :=
    List.mem_map_of_mem (cityLine rows) h
  simp only [summarize_lines]
  exact List.mem_cons_of_mem _ (List.mem_cons_of_mem _ hmem)

/-- C2 witness: the amended statement evaluated on the scenario-A Dataset. -/
theorem C2_witness :
    ("CityX" ++ " → Avg AQI " ++
        fmt1 (seriesMean ((scenarioARows.filter (fun r => r.city == "CityX")).map (fun r => r.aqi))) ++
      ", Min " ++
        fmt1 (seriesMin ((scenarioARows.filter (fun r => r.city == "CityX")).map (fun r => r.aqi))) ++
      ", Max " ++
        fmt1 (seriesMax ((scenarioARows.filter (fun r => r.city == "CityX")).map (fun r => r.aqi))))
      ∈ summarize_lines scenarioARows :=
  C2_thm scenarioARows "CityX" (by decide)

/-! ### Claim C3: missing required columns -/

/-- C3: if any of the required columns `Date`, `City`, `AQI` is absent from
the uploaded header (after trimming surrounding whitespace), `load_data`
fails with the `ValueError` of src/utils.py line 15, and the error message
contains the name of every missing required column. -/
theorem C3_thm (parseDate : String → Option Date) (parseAQI : String → Option Q)
    (csv : Csv) (c : String) (hreq : c ∈ requiredCols)
    (habs : ¬ c ∈ csv.columns.map (fun n => pyStrip n)) :
    load_data parseDate parseAQI csv =
      .error "CSV must contain Date, City, AQI columns"
    ∧ ∀ m ∈ missingCols csv.columns,
        strHasSub m "CSV must contain Date, City, AQI columns" = true := by
  have hmem : c ∈ missingCols csv.columns := by
    simp only [missingCols, List.mem_filter]
    exact ⟨hreq, by simpa using habs⟩
  have hne : missingCols csv.columns ≠ [] := List.ne_nil_of_mem hmem
  refine ⟨by simp only [load_data, if_pos hne], ?_⟩
  intro m hm
  have hm' : m ∈ requiredCols := List.mem_of_mem_filter hm
  simp only [requiredCols, List.mem_cons, List.mem_singleton] at hm'
  rcases hm' with rfl | rfl | hm'
  · decide
  · decide
  · rcases hm' with rfl | h
    · decide
    · exact absurd h (List.not_mem_nil m)

/-- C3 witness: a header missing the `AQI` column (and with whitespace around
`Date`) is rejected with the fixed message, which names the missing column. -/
theorem C3_witness :
    load_data demoParseDate demoParseAQI
      { columns := [" Date ", "City"], rows := [⟨"2024-01-01", "CityX", "50"⟩] } =
      .error "CSV must contain Date, City, AQI columns"
    ∧ ∀ m ∈ missingCols [" Date ", "City"],
        strHasSub m "CSV must contain Date, City, AQI columns" = true :=
  C3_thm demoParseDate demoParseAQI
    { columns := [" Date ", "City"], rows := [⟨"2024-01-01", "CityX", "50"⟩] }
    "AQI" (by decide) (by decide)

/-! ### Claim C4: error handling of the Gemini helper -/

/-- C4 counterexample: with a configured key, an error raised by the SDK call
inside `get_gemini_response` is NOT caught — there is no `try/except` in the
function — so the call site receives the raised exception, not a sentinel
string. -/
theorem C4_counterexample :
    get_gemini_response (some "k") none
        (fun _ _ => GenaiOutcome.raised ⟨"ServerError", "boom"⟩) "hi" =
      .exc ⟨"ServerError", "boom"⟩
    ∧ (get_gemini_response (some "k") none
        (fun _ _ => GenaiOutcome.raised ⟨"ServerError", "boom"⟩) "hi").isExc = true := by
  exact ⟨rfl, rfl⟩

/-- C4 (amended): when no credential is configured (both environment
variables empty or unset), `get_gemini_response` returns the sentinel string
`"Gemini API key missing."` without attempting the call; but when a key is
configured and the external call raises, the exception propagates uncaught to
the caller (where src/app.py's catch-all displays it) instead of being
converted to a sentinel string. -/
theorem C4_thm (gk gg : Option String) (generate : String → String → GenaiOutcome)
    (prompt : String) (k : String) (e : PyError) :
    ((truthy gk <|> truthy gg) = none →
      get_gemini_response gk gg generate prompt = .ret "Gemini API key missing.")
    ∧ ((truthy gk <|> truthy gg) = some k → generate k prompt = .raised e →
      get_gemini_response gk gg generate prompt = .exc e) := by
  constructor
  · intro h
    simp only [get_gemini_response, h]
  · intro h hr
    simp only [get_gemini_response, h, hr]

/-- C4 witness: both branches of the amended statement at concrete inputs —
unset/empty keys give the sentinel, a raising call escapes. -/
theorem C4_witness :
    get_gemini_response none (some "")
        (fun _ _ => GenaiOutcome.text (some "hello")) "p" = .ret "Gemini API key missing."
    ∧ get_gemini_response (some "key") none
        (fun _ _ => GenaiOutcome.raised ⟨"APIError", "quota"⟩) "p" =
      .exc ⟨"APIError", "quota"⟩ :=
  ⟨(C4_thm none (some "") (fun _ _ => GenaiOutcome.text (some "hello")) "p" "?"
      ⟨"?", "?"⟩).1 rfl,
   (C4_thm (some "key") none (fun _ _ => GenaiOutcome.raised ⟨"APIError", "quota"⟩) "p"
      "key" ⟨"APIError", "quota"⟩).2 rfl rfl⟩

/-! ### Claims C5 and C6: shape of the loaded Dataset -/

/-- An upload whose parseable rows arrive in reverse chronological order. -/
def outOfOrderCsv : Csv :=
  { columns := ["Date", "City", "AQI"]
    rows := [⟨"2024-02-01", "CityA", "100"⟩, ⟨"2024-01-01", "CityA", "50"⟩] }

/-- What `load_data` returns on `outOfOrderCsv`: the input order, untouched. -/
def outOfOrderRows : List Obs :=
  [⟨⟨2024, 2, 1⟩, "CityA", ⟨100, 1⟩⟩, ⟨⟨2024, 1, 1⟩, "CityA", ⟨50, 1⟩⟩]

/-- C5 counterexample: `load_data` itself does not sort — on an upload whose
rows are in reverse chronological order it returns them in input order, which
is not ascending by date (the first returned row's date is strictly after the
second's). -/
theorem C5_counterexample :
    load_data demoParseDate demoParseAQI outOfOrderCsv = .ok outOfOrderRows
    ∧ ¬ dateLe ⟨⟨2024, 2, 1⟩, "CityA", ⟨100, 1⟩⟩ ⟨⟨2024, 1, 1⟩, "CityA", ⟨50, 1⟩⟩
    ∧ ¬ List.Sorted dateLe outOfOrderRows := by
  refine ⟨by decide, by decide, fun h => ?_⟩
  simp only [outOfOrderRows] at h
  have h1 := (List.sorted_cons.mp h).1 ⟨⟨2024, 1, 1⟩, "CityA", ⟨50, 1⟩⟩ (by simp)
  exact absurd h1 (by decide)

/-- C5 (amended): for every upload with all required columns, `load_data`
returns (never raises) a Dataset with at most as many rows as the input,
strictly excluding every row whose date or AQI is unparseable — every output
row originates from an input row on which both parses succeed — and in input
order; the ascending-by-date order is established immediately afterwards by
the app's `df.sort_values("Date")`, modelled by `sort_values`, whose output
is sorted. -/
theorem C5_thm (parseDate : String → Option Date) (parseAQI : String → Option Q)
    (csv : Csv) (h : missingCols csv.columns = []) :
    ∃ out : List Obs,
      load_data parseDate parseAQI csv = .ok out
      ∧ out.length ≤ csv.rows.length
      ∧ (∀ o ∈ out, ∃ r ∈ csv.rows,
          parseDate r.date = some o.date ∧ parseAQI r.aqi = some o.aqi ∧ r.city = o.city)
      ∧ List.Sorted dateLe (sort_values out) := by
  have hcond : ¬ (missingCols csv.columns ≠ []) := by simp [h]
  refine ⟨_, by rw [load_data, if_neg hcond], List.length_filterMap_le _ _, ?_, ?_⟩
  · intro o ho
    rcases List.mem_filterMap.mp ho with ⟨r, hr, hf⟩
    refine ⟨r, hr, ?_⟩
    rcases hd : parseDate r.date with _ | d
    · rw [hd] at hf; simp at hf
    · rcases ha : parseAQI r.aqi with _ | a
      · rw [hd, ha] at hf; simp at hf
      · rw [hd, ha] at hf
        rcases Option.some.inj hf with rfl
        exact ⟨rfl, rfl, rfl⟩
  · exact List.sorted_insertionSort dateLe _

/-- C5 witness: the amended statement evaluated on the scenario-A upload. -/
theorem C5_witness :
    ∃ out : List Obs,
      load_data demoParseDate demoParseAQI scenarioA = .ok out
      ∧ out.length ≤ scenarioA.rows.length
      ∧ (∀ o ∈ out, ∃ r ∈ scenarioA.rows,
          demoParseDate r.date = some o.date ∧ demoParseAQI r.aqi = some o.aqi ∧
            r.city = o.city)
      ∧ List.Sorted dateLe (sort_values out) :=
  C5_thm demoParseDate demoParseAQI scenarioA (by decide)

/-- An upload in which every row has an unparseable date or AQI value. -/
def allBadCsv : Csv :=
  { columns := ["Date", "City", "AQI"]
    rows := [⟨"notadate", "CityA", "50"⟩, ⟨"2024-01-01", "CityB", "bad"⟩] }

/-- C6 counterexample: when every row is dropped during validation,
`load_data` does NOT fail with `InvalidDataError("no valid rows")` — it
returns an empty Dataset without raising. -/
theorem C6_counterexample :
    load_data demoParseDate demoParseAQI allBadCsv = .ok [] := by decide

/-- C6 (amended): `load_data` never errors because rows were dropped: with
the required columns present, when every row's date or AQI is unparseable it
returns the empty Dataset (and, as `C5_thm` shows, it returns `.ok` whenever
the required columns are present, dropped rows or not). -/
theorem C6_thm (parseDate : String → Option Date) (parseAQI : String → Option Q)
    (csv : Csv) (h : missingCols csv.columns = [])
    (hall : ∀ r ∈ csv.rows, parseDate r.date = none ∨ parseAQI r.aqi = none) :
    load_data parseDate parseAQI csv = .ok [] := by
  have hcond : ¬ (missingCols csv.columns ≠ []) := by simp [h]
  rw [load_data, if_neg hcond]
  congr 1
  rw [List.filterMap_eq_nil_iff]
  intro r hr
  rcases hall r hr with hd | ha
  · rw [hd]
  · rw [ha]
    cases parseDate r.date <;> rfl

/-- C6 witness: the amended statement evaluated on the all-invalid upload. -/
theorem C6_witness : load_data demoParseDate demoParseAQI allBadCsv = .ok [] :=
  C6_thm demoParseDate demoParseAQI allBadCsv (by decide)
    (by intro r hr
        simp only [allBadCsv, List.mem_cons, List.not_mem_nil, or_false] at hr
        rcases hr with rfl | rfl
        · exact Or.inl (by decide)
        · exact Or.inr (by decide))

/-! ### Claim C7: the AQI category mapping -/

/-- C7: the category mapping used by the Live AQI Resolver sends index 1 to
`Good`, 2 to `Fair`, 3 to `Moderate`, 4 to `Poor`, 5 to `Very Poor`, and both
an absent value and any value outside 1-5 to `Unknown` (the dict default used
at src/utils.py line 135). -/
theorem C7_thm :
    categoryGet (some 1) "Unknown" = "Good"
    ∧ categoryGet (some 2) "Unknown" = "Fair"
    ∧ categoryGet (some 3) "Unknown" = "Moderate"
    ∧ categoryGet (some 4) "Unknown" = "Poor"
    ∧ categoryGet (some 5) "Unknown" = "Very Poor"
    ∧ categoryGet none "Unknown" = "Unknown"
    ∧ ∀ v : Int, ¬ v ∈ ([1, 2, 3, 4, 5] : List Int) →
        categoryGet (some v) "Unknown" = "Unknown" := by
  refine ⟨rfl, rfl, rfl, rfl, rfl, rfl, ?_⟩
  intro v hv
  simp only [List.mem_cons, List.not_mem_nil, or_false] at hv
  push_neg at hv
  obtain ⟨h1, h2, h3, h4, h5⟩ := hv
  have e1 : (v == 1) = false := beq_eq_false_iff_ne.mpr h1
  have e2 : (v == 2) = false := beq_eq_false_iff_ne.mpr h2
  have e3 : (v == 3) = false := beq_eq_false_iff_ne.mpr h3
  have e4 : (v == 4) = false := beq_eq_false_iff_ne.mpr h4
  have e5 : (v == 5) = false := beq_eq_false_iff_ne.mpr h5
  simp [categoryGet, aqi_category_map, List.lookup, e1, e2, e3, e4, e5]

/-- C7 witness: an out-of-range index (7) maps to `Unknown`. -/
theorem C7_witness : categoryGet (some 7) "Unknown" = "Unknown" :=
  C7_thm.2.2.2.2.2.2 7 (by decide)

/-! ### Claim C8: failure handling of coordinate resolution -/

/-- C8 counterexample: with a configured key, an exception raised by the
geocoding HTTP call escapes `get_city_coordinates` (which has no
`try/except`) and propagates out of `fetch_live_aqi` — the resolver crashes
instead of terminating with an error record; moreover, with no credential the
error record returned carries the generic message
`"Failed to resolve city location."`, which does not mention the missing
credential. -/
theorem C8_counterexample :
    fetch_live_aqi (some "k")
        (fun _ => GeoResult.raised ⟨"ConnectionError", "boom"⟩)
        (fun _ _ => PollResp.timeout) "Delhi" = .exc ⟨"ConnectionError", "boom"⟩
    ∧ (fetch_live_aqi (some "k")
        (fun _ => GeoResult.raised ⟨"ConnectionError", "boom"⟩)
        (fun _ _ => PollResp.timeout) "Delhi").isExc = true
    ∧ fetch_live_aqi none (fun _ => GeoResult.ok [])
        (fun _ _ => PollResp.timeout) "Delhi" =
      .ret (.err "Failed to resolve city location.")
    ∧ strHasSub "credential missing" "Failed to resolve city location." = false := by
  exact ⟨rfl, rfl, rfl, by decide⟩

/-- C8 (amended): when coordinate resolution fails because no credential is
configured or because the city is not found, `fetch_live_aqi` terminates with
an error record — but its tag is always the generic
`"Failed to resolve city location."`, losing the cause (so a missing
credential is not tagged "credential missing"); and when the geocoding HTTP
call raises, the exception propagates uncaught out of `fetch_live_aqi`. -/
theorem C8_thm (geo : String → GeoResult) (poll : Rat → Rat → PollResp)
    (city : String) (key : Option String) (k : String) (e : PyError)
    (hkey : truthy key = some k) :
    fetch_live_aqi none geo poll city = .ret (.err "Failed to resolve city location.")
    ∧ (geo city = GeoResult.ok [] →
        fetch_live_aqi key geo poll city = .ret (.err "Failed to resolve city location."))
    ∧ (geo city = GeoResult.raised e → fetch_live_aqi key geo poll city = .exc e) := by
  refine ⟨rfl, ?_, ?_⟩
  · intro h
    simp only [fetch_live_aqi, get_city_coordinates, hkey, h]
  · intro h
    simp only [fetch_live_aqi, get_city_coordinates, hkey, h]

/-- C8 witness: the amended statement at concrete oracles — no key, a
not-found city with a key, and a raising geocoding call with a key. -/
theorem C8_witness :
    fetch_live_aqi none (fun _ => GeoResult.ok []) (fun _ _ => PollResp.timeout) "Pune" =
      .ret (.err "Failed to resolve city location.")
    ∧ fetch_live_aqi (some "k") (fun _ => GeoResult.ok [])
        (fun _ _ => PollResp.timeout) "Pune" =
      .ret (.err "Failed to resolve city location.")
    ∧ fetch_live_aqi (some "k") (fun _ => GeoResult.raised ⟨"Timeout", "t"⟩)
        (fun _ _ => PollResp.timeout) "Pune" = .exc ⟨"Timeout", "t"⟩ := by
  refine ⟨?_, ?_, ?_⟩
  · exact (C8_thm (fun _ => GeoResult.ok []) (fun _ _ => PollResp.timeout) "Pune"
      (some "k") "k" ⟨"Timeout", "t"⟩ rfl).1
  · exact (C8_thm (fun _ => GeoResult.ok []) (fun _ _ => PollResp.timeout) "Pune"
      (some "k") "k" ⟨"Timeout", "t"⟩ rfl).2.1 rfl
  · exact (C8_thm (fun _ => GeoResult.raised ⟨"Timeout", "t"⟩) (fun _ _ => PollResp.timeout)
      "Pune" (some "k") "k" ⟨"Timeout", "t"⟩ rfl).2.2 rfl

/-! ### Claim C9: the two-argument call to the one-parameter Gemini helper -/

/-- C9: for every data summary, API key and implementation of the helper's
body, each of the three analysis buttons calls
`utils.get_gemini_response(prompt, api_key)` with two positional arguments
while the function's `def` takes exactly one, so the call raises `TypeError`
before the body runs; the app's `except ValueError` does not match it and the
catch-all displays "An unexpected error occurred: ..." — no click ever
produces analysis text. -/
theorem C9_thm (b : AppButton) (data_summary api_key : String)
    (body : String → PyResult String) :
    app_button_click b data_summary api_key body =
      .errorBox ("An unexpected error occurred: " ++
        ("get_gemini_response() takes 1 positional argument but " ++
          Nat.repr 2 ++ " were given"))
    ∧ ("get_gemini_response() takes 1 positional argument but " ++
        Nat.repr 2 ++ " were given") =
      "get_gemini_response() takes 1 positional argument but 2 were given"
    ∧ ∀ t, app_button_click b data_summary api_key body ≠ .analysis t := by
  refine ⟨rfl, by decide, fun t h => ?_⟩
  rw [(rfl :
    app_button_click b data_summary api_key body =
      Shown.errorBox ("An unexpected error occurred: " ++
        ("get_gemini_response() takes 1 positional argument but " ++
          Nat.repr 2 ++ " were given")))] at h
  exact Shown.noConfusion h

/-! ### Claim C10: the 24-hour forecast slot repeats the current record -/

lemma fetch_air_pollution_ok_head (owKey : Option String) (poll : Rat → Rat → PollResp)
    (lat lon : Rat) (current : PollRecord) (forecast : List PollRecord)
    (h : fetch_air_pollution owKey poll lat lon = .ok current forecast) :
    ∃ rest, forecast = current :: rest := by
  unfold fetch_air_pollution at h
  split at h
  · simp at h
  · split at h
    · simp at h
    · simp at h
    · simp at h
    · simp at h
    · rename_i c tail heq
      rcases h with ⟨rfl, rfl⟩
      exact ⟨tail.take 2, by simp⟩

lemma mainAqiItem_ret (rec : PollRecord) (v : Int) (h : rec.mainAqiItem = .ret v) :
    rec.mainAqiGet = some v := by
  unfold PollRecord.mainAqiItem at h
  unfold PollRecord.mainAqiGet
  split at h
  · rename_i hm
    split at h
    · rename_i v' hv
      rcases h with ⟨rfl⟩
      rw [if_pos hm, hv]
    · simp at h
  · simp at h

/-- C10: in every success result of `fetch_live_aqi`, the "Next 24 Hours"
category of `forecast_text` equals the current category: the forecast list of
`fetch_air_pollution` is `data["list"][:3]`, whose first element is the very
record used as `current`, so the first short-horizon slot never describes a
distinct future window. -/
theorem C10_thm (owKey : Option String) (geo : String → GeoResult)
    (poll : Rat → Rat → PollResp) (city : String) (r : LiveReading)
    (h : fetch_live_aqi owKey geo poll city = .ret (.ok r)) :
    ∃ c48, r.forecast_text =
      "Next 24 Hours: " ++ r.category ++ "\nFollowing 24 Hours: " ++ c48 := by
  unfold fetch_live_aqi at h
  split at h
  · simp at h
  · simp at h
  · rename_i lat lon hgc
    split at h
    · simp at h
    · rename_i current forecast_list hpoll
      obtain ⟨rest, rfl⟩ := fetch_air_pollution_ok_head _ _ _ _ _ _ hpoll
      dsimp only at h
      rcases hitem : current.mainAqiItem with v | e
      · rw [hitem] at h
        dsimp only at h
        have hget : current.mainAqiGet = some v := mainAqiItem_ret current v hitem
        rcases rest with _ | ⟨f1, rest'⟩
        · dsimp only at h
          rcases h with ⟨rfl⟩
          refine ⟨categoryGet current.mainAqiGet "Unknown", ?_⟩
          dsimp only
          rw [hget, categoryGet_idem]
        · dsimp only at h
          rcases hitem2 : f1.mainAqiItem with w | e2
          · rw [hitem2] at h
            dsimp only at h
            rcases h with ⟨rfl⟩
            refine ⟨categoryGet (some w) (categoryGet current.mainAqiGet "Unknown"), ?_⟩
            dsimp only
            rw [hget, categoryGet_idem]
          · rw [hitem2] at h
            simp at h
      · rw [hitem] at h
        simp at h

/-- A geocoding oracle returning one hit at the origin. -/
def demoGeo : String → GeoResult := fun _ => .ok [⟨0, 0⟩]

/-- A pollution oracle returning a single record with AQI index 2. -/
def demoPoll : Rat → Rat → PollResp := fun _ _ => .payload (some [⟨true, some 2, []⟩])

/-- The reading `fetch_live_aqi` produces from `demoGeo`/`demoPoll`. -/
def demoReading : LiveReading :=
  { aqi := some 2
    category := "Fair"
    components := []
    forecast_text := "Next 24 Hours: Fair\nFollowing 24 Hours: Fair"
    forecast := [⟨true, some 2, []⟩] }

/-- C10 witness: a concrete success run, on which the Next-24-Hours category
equals the current category. -/
theorem C10_witness :
    ∃ c48, demoReading.forecast_text =
      "Next 24 Hours: " ++ demoReading.category ++ "\nFollowing 24 Hours: " ++ c48 :=
  C10_thm (some "k") demoGeo demoPoll "Delhi" demoReading (by decide)
